import Mathlib

/-!
# Verification of the homework status poll bot (`src/homework.py`)

This file shallowly embeds the Python program `homework.py` in Lean:

* JSON values are modelled by the inductive `Json`; Python dictionaries are
  association lists with first-match lookup.
* Python exceptions are modelled by the `PyError` type.  `TypeError` plays the
  role the spec calls `SchemaError`, `KeyError` the role of
  `MissingFieldError`, and `ValueError` carries both the missing-field and the
  unknown-status messages of `parse_status` (the two are distinguished by
  their message text, exactly as in the source).
* The Telegram bot is modelled by `BotState` (a log of attempted and of
  delivered messages) together with a channel oracle `ch : Nat → Option String`
  deciding, per send attempt, whether the attempt succeeds (`none`) or raises
  a `TelegramError` with the given text (`some e`).
* The HTTP fetch performed by `get_api_answer` is modelled by an oracle
  producing either a transport failure (`Except.error`) or an
  `HttpResponse` (status code plus optionally JSON-decodable body).
* One iteration of the `while True` body of `main` is `runCycle`; iterating it
  is `loopStateAfter`.  The `finally: time.sleep(RETRY_PERIOD)` step has no
  observable state, so a cycle is exactly the `try`/`except` body; the fact
  that `runCycle` is a total function returning a successor state models that
  no exception escapes the loop body.
-/

set_option autoImplicit false

/-- JSON values, as decoded by `response.json()` in the source.  Python
dictionaries are association lists (keys unique in practice; lookup takes the
first match). -/
inductive Json where
  | null : Json
  | bool : Bool → Json
  | int : Int → Json
  | str : String → Json
  | arr : List Json → Json
  | obj : List (String × Json) → Json
deriving BEq

/-- Python `isinstance(v, dict)`. -/
def isDict : Json → Bool
  | Json.obj _ => true
  | _ => false

/-- Python `isinstance(v, list)`. -/
def isList : Json → Bool
  | Json.arr _ => true
  | _ => false

/-- Python exception values reaching the loop, tagged by class.
`str(exception)` is `pyErrStr` below. -/
inductive PyError where
  | typeError : String → PyError
  | keyError : String → PyError
  | valueError : String → PyError
  | connectionError : String → PyError
  | attributeError : String → PyError
  | exception : String → PyError
deriving DecidableEq

/-- First-match lookup in an association list, i.e. Python dict access. -/
def lookupFirst {α : Type} : List (String × α) → String → Option α
  | [], _ => none
  | (k, v) :: rest, key => if k = key then some v else lookupFirst rest key

mutual

/-- Python `repr` of a decoded-JSON value (approximation: string escaping
inside `repr` of a string is not modelled; no message the program builds
depends on it). -/
def pyRepr : Json → String
  | Json.null => "None"
  | Json.bool true => "True"
  | Json.bool false => "False"
  | Json.int n => toString n
  | Json.str s => "\x27" ++ s ++ "\x27"
  | Json.arr xs => "[" ++ String.intercalate ", " (pyReprList xs) ++ "]"
  | Json.obj fs => "\x7b" ++ String.intercalate ", " (pyReprFields fs) ++ "\x7d"

def pyReprList : List Json → List String
  | [] => []
  | x :: xs => pyRepr x :: pyReprList xs

def pyReprFields : List (String × Json) → List String
  | [] => []
  | (k, v) :: fs => ("\x27" ++ k ++ "\x27: " ++ pyRepr v) :: pyReprFields fs

end

/-- Python `str` of a decoded-JSON value, as used by f-string interpolation. -/
def pyStr : Json → String
  | Json.str s => s
  | v => pyRepr v

/-- Python `str(exception)`: the message, except that `KeyError` wraps its
argument in `repr` quotes. -/
def pyErrStr : PyError → String
  | PyError.typeError m => m
  | PyError.keyError m => "\x27" ++ m ++ "\x27"
  | PyError.valueError m => m
  | PyError.connectionError m => m
  | PyError.attributeError m => m
  | PyError.exception m => m

/-- Substring test on character lists, for Python `key in someString`. -/
def listIsInfix (needle : List Char) : List Char → Bool
  | [] => needle.isEmpty
  | c :: rest => needle.isPrefixOf (c :: rest) || listIsInfix needle rest

/-- Python membership `key in v` for a decoded-JSON `v`: key lookup on a dict,
element membership on a list, substring on a string, `TypeError` otherwise. -/
def pyIn (key : String) (v : Json) : Except PyError Bool :=
  match v with
  | Json.obj fields => Except.ok (lookupFirst fields key).isSome
  | Json.arr elems => Except.ok (elems.contains (Json.str key))
  | Json.str s => Except.ok (listIsInfix key.toList s.toList)
  | _ => Except.error (PyError.typeError "argument of type is not iterable")

/-- Python `v.get(key)` (default `None`): an `AttributeError` unless `v` is a
dict. -/
def pyDictGet (v : Json) (key : String) : Except PyError Json :=
  match v with
  | Json.obj fields => Except.ok ((lookupFirst fields key).getD Json.null)
  | _ => Except.error (PyError.attributeError "object has no attribute get")

/-- The `HOMEWORK_VERDICTS` table of the source. -/
def HOMEWORK_VERDICTS : List (String × String) :=
  [("approved", "Работа проверена: ревьюеру всё понравилось. Ура!"),
   ("reviewing", "Работа взята на проверку ревьюером."),
   ("rejected", "Работа проверена: у ревьюера есть замечания.")]

/-- Membership `homework_status in HOMEWORK_VERDICTS` combined with the table
lookup: a string status selects its verdict when it is one of the three keys;
the other hashable decoded-JSON values (`None`, booleans, integers) are
simply not keys of the table; an unhashable value — a list or a dict —
makes the membership test itself raise `TypeError: unhashable type`. -/
def verdictLookup : Json → Except PyError (Option String)
  | Json.str s => Except.ok (lookupFirst HOMEWORK_VERDICTS s)
  | Json.arr _ => Except.error (PyError.typeError "unhashable type: \x27list\x27")
  | Json.obj _ => Except.error (PyError.typeError "unhashable type: \x27dict\x27")
  | _ => Except.ok none

/-- Function `check_response` (source lines 75–86): dict check, `homeworks` presence,
`homeworks` list check, `current_date` presence — in that order. -/
def check_response (response : Json) : Except PyError Json :=
  match response with
  | Json.obj fields =>
    match lookupFirst fields "homeworks" with
    | none => Except.error (PyError.keyError "отуствуют ожидаемые ключи в ответе api")
    | some homeworks =>
      match homeworks with
      | Json.arr xs =>
        match lookupFirst fields "current_date" with
        | none => Except.error (PyError.keyError "отсутсвует ключ \"current_date")
        | some _ => Except.ok (Json.arr xs)
      | _ => Except.error (PyError.typeError ("неверный формат API, " ++ pyStr homeworks))
  | _ => Except.error (PyError.typeError "неверный формат API")

/-- Function `parse_status` (source lines 89–98): `homework_name` membership check
(raising `ValueError` whose message interpolates the whole entry), then
`.get` of the name and the status, then the verdict-table membership check
(which itself raises `TypeError` on an unhashable status value). -/
def parse_status (homework : Json) : Except PyError String := do
  let hasName ← pyIn "homework_name" homework
  if hasName then
    let homework_name ← pyDictGet homework "homework_name"
    let homework_status ← pyDictGet homework "status"
    match (← verdictLookup homework_status) with
    | some verdict =>
      Except.ok ("Изменился статус проверки работы \"" ++ pyStr homework_name ++ "\". " ++ verdict)
    | none => Except.error (PyError.valueError "Недокументированный статус домашней работы")
  else
    Except.error (PyError.valueError ("ответ api не содержит ключа " ++ pyStr homework))

/-- Severity levels of the `logging` calls the program makes. -/
inductive LogLevel where
  | debug : LogLevel
  | info : LogLevel
  | error : LogLevel
  | critical : LogLevel
deriving DecidableEq

/-- One log line: severity and message. -/
structure LogEntry where
  level : LogLevel
  msg : String
deriving DecidableEq

/-- Observable state of the Telegram bot: every message passed to
`bot.send_message` in order (`attempts`), and the sublist the channel actually
delivered (`sent`). -/
structure BotState where
  attempts : List String
  sent : List String
deriving DecidableEq

/-- Function `send_error_message` (source lines 36–41): one
`bot.send_message` attempt (attempt number `bot.attempts.length` against the
channel oracle `ch`; `ch _ = none` delivers, `ch _ = some e` raises a
`TelegramError` with text `e`); the `TelegramError` is caught and logged
locally, never re-raised. -/
def send_error_message (ch : Nat → Option String) (bot : BotState)
    (error_message : String) : BotState × List LogEntry :=
  match ch bot.attempts.length with
  | none => (⟨bot.attempts ++ [error_message], bot.sent ++ [error_message]⟩, [])
  | some e =>
    (⟨bot.attempts ++ [error_message], bot.sent⟩,
     [⟨LogLevel.error, "ошбка отправки сообщения об ошибке " ++ e⟩])

/-- Function `send_message` (source lines 44–53): a `TelegramError` on the
payload send is converted to a generic `Exception` and re-raised (second
component `some _`); on success a debug line is logged and a follow-up
"сообщение отправлено" notice is pushed through `send_error_message`. -/
def send_message (ch : Nat → Option String) (bot : BotState) (message : String) :
    BotState × Option PyError × List LogEntry :=
  match ch bot.attempts.length with
  | some e =>
    (⟨bot.attempts ++ [message], bot.sent⟩,
     some (PyError.exception ("Ошибка при отправке сообщения: " ++ e)), [])
  | none =>
    let r := send_error_message ch ⟨bot.attempts ++ [message], bot.sent ++ [message]⟩
      "сообщение отправлено"
    (r.1, none, ⟨LogLevel.debug, "сообщение отправлено"⟩ :: r.2)

/-- Reply of one HTTP GET against the API: status code, and the JSON body if
the payload decodes (`none` models a `response.json()` failure). -/
structure HttpResponse where
  status : Nat
  body : Option Json

/-- Function `get_api_answer` (source lines 56–72) applied to the outcome of
the underlying `requests.get` call: a `requests.RequestException` (outer
`Except.error`), any `raise_for_status` failure (status ≥ 400, an
`HTTPError`, hence also a `RequestException`), a non-200 status, and a JSON
decode failure all surface as `ConnectionError` variants. -/
def get_api_answer (result : Except String HttpResponse) : Except PyError Json :=
  match result with
  | Except.error _ => Except.error (PyError.connectionError "")
  | Except.ok resp =>
    if 400 ≤ resp.status then Except.error (PyError.connectionError "")
    else if resp.status ≠ 200 then
      Except.error (PyError.connectionError "Статус ответа сервере не 200")
    else
      match resp.body with
      | none => Except.error (PyError.connectionError "Ошибка при обработке ответа API")
      | some data => Except.ok data

/-- Function `handle_homework` (source lines 101–109): every exception from
`parse_status` is caught and logged; the message is returned only if truthy
(non-empty). -/
def handle_homework (homework : Json) : Option String × List LogEntry :=
  match parse_status homework with
  | Except.ok message => if message = "" then (none, []) else (some message, [])
  | Except.error e => (none, [⟨LogLevel.error, "ошибка парсинга " ++ pyErrStr e⟩])

/-- Function `handle_response` (source lines 112–120): only a `ValueError`
from `check_response` is caught here (and `check_response` never raises one);
`TypeError` and `KeyError` propagate to the caller. -/
def handle_response (response : Json) : Except PyError (Option String × List LogEntry) :=
  match check_response response with
  | Except.ok homeworks =>
    match homeworks with
    | Json.arr (first :: _) => Except.ok (handle_homework first)
    | _ => Except.ok (none, [])
  | Except.error e =>
    match e with
    | PyError.valueError m =>
      Except.ok (none, [⟨LogLevel.error, "ощибка в запросе API " ++ pyErrStr (PyError.valueError m)⟩])
    | _ => Except.error e

/-- State owned by the loop in `main`: the `timestamp` variable (a decoded
JSON value, since line 144 can in principle store `response.get(...)`) and
the bot. -/
structure LoopState where
  timestamp : Json
  bot : BotState

/-- Body of `except Exception as error` in `main` (source lines 145–147):
log the failure and push a best-effort operator alert with `str(error)`. -/
def exceptBranch (ch : Nat → Option String) (bot : BotState) (error : PyError) :
    BotState × List LogEntry :=
  let r := send_error_message ch bot (pyErrStr error)
  (r.1, ⟨LogLevel.error, "Сбой в работе программы: " ++ pyErrStr error⟩ :: r.2)

/-- Source lines 140–144, reached when the try body survives up to them:
`if 'current_date' not in response:` log an error, alert the operator, and
set `timestamp = response.get('current_date')` — note the guard is taken
exactly when the key is absent, so the stored value is `None`.  A `TypeError`
from `in` or an `AttributeError` from `.get` routes to the except branch. -/
def currentDateBlock (ch : Nat → Option String) (timestamp : Json) (bot : BotState)
    (response : Json) (logsSoFar : List LogEntry) : LoopState × List LogEntry :=
  match pyIn "current_date" response with
  | Except.error e =>
    let r := exceptBranch ch bot e
    (⟨timestamp, r.1⟩, logsSoFar ++ r.2)
  | Except.ok true => (⟨timestamp, bot⟩, logsSoFar)
  | Except.ok false =>
    let r := send_error_message ch bot "нет ключа \"current_date\""
    let logs2 := logsSoFar ++ ⟨LogLevel.error, "отсутсвует ключ \"current_date\""⟩ :: r.2
    match pyDictGet response "current_date" with
    | Except.ok v => (⟨v, r.1⟩, logs2)
    | Except.error e =>
      let r2 := exceptBranch ch r.1 e
      (⟨timestamp, r2.1⟩, logs2 ++ r2.2)

/-- One iteration of the `while True` body of `main` (source lines 133–149):
fetch, handle the response, send the message if any, run the `current_date`
block; any uncaught exception lands in `exceptBranch`.  The trailing
`finally: time.sleep(RETRY_PERIOD)` has no observable state.  The result is
the successor `LoopState` plus the log lines of the cycle. -/
def runCycle (ch : Nat → Option String) (fetch : Json → Except String HttpResponse)
    (st : LoopState) : LoopState × List LogEntry :=
  match get_api_answer (fetch st.timestamp) with
  | Except.error e =>
    let r := exceptBranch ch st.bot e
    (⟨st.timestamp, r.1⟩, r.2)
  | Except.ok response =>
    match handle_response response with
    | Except.error e =>
      let r := exceptBranch ch st.bot e
      (⟨st.timestamp, r.1⟩, r.2)
    | Except.ok mh =>
      match mh.1 with
      | none => currentDateBlock ch st.timestamp st.bot response mh.2
      | some m =>
        if m = "" then currentDateBlock ch st.timestamp st.bot response mh.2
        else
          match (send_message ch st.bot m).2.1 with
          | some e =>
            let r := exceptBranch ch (send_message ch st.bot m).1 e
            (⟨st.timestamp, r.1⟩, mh.2 ++ (send_message ch st.bot m).2.2 ++ r.2)
          | none =>
            currentDateBlock ch st.timestamp (send_message ch st.bot m).1 response
              (mh.2 ++ (send_message ch st.bot m).2.2 ++
                [⟨LogLevel.info, "Новое сообщение: " ++ m⟩])

/-- State of the loop after `n` full cycles, where `fetch k` is the HTTP
behaviour of cycle `k` (as a function of the `from_date` parameter it is
called with) and `ch` numbers send attempts globally. -/
def loopStateAfter (ch : Nat → Option String)
    (fetch : Nat → Json → Except String HttpResponse) (st : LoopState) : Nat → LoopState
  | 0 => st
  | n + 1 => (runCycle ch (fetch n) (loopStateAfter ch fetch st n)).1

/-- The three environment credentials read at module load. -/
structure BotConfig where
  practicumToken : Option String
  telegramToken : Option String
  chatId : Option String

/-- Python truthiness of an `os.getenv` result: `None` and the empty string
are falsy. -/
def truthyEnv : Option String → Bool
  | none => false
  | some s => s ≠ ""

/-- Function `check_tokens` (source lines 31–33): `all` of the three
credentials, under Python truthiness. -/
def check_tokens (cfg : BotConfig) : Bool :=
  truthyEnv cfg.practicumToken && truthyEnv cfg.telegramToken && truthyEnv cfg.chatId

/-- Outcome of a startup that terminated: the interpreter exit status of the
raised `SystemExit`, the log lines, and the bot state (recording any alert
attempt made on the way out). -/
structure StartupExit where
  exitCode : Nat
  logs : List LogEntry
  bot : BotState

/-- Startup portion of `main` (source lines 123–132): construct the bot, and
if `check_tokens()` fails, log at critical severity, push a best-effort
"отсуствует токен" alert, and `raise SystemExit` — a bare `SystemExit`, whose
process exit status is 0.  Otherwise initialise `timestamp` to the current
time `t0` and enter the loop. -/
def mainStartup (cfg : BotConfig) (ch : Nat → Option String) (t0 : Int) :
    Except StartupExit LoopState :=
  if check_tokens cfg then
    Except.ok ⟨Json.int t0, ⟨[], []⟩⟩
  else
    let r := send_error_message ch ⟨[], []⟩ "отсуствует токен"
    Except.error
      ⟨0, ⟨LogLevel.critical, "Отсуствует токен, программа приостановлена"⟩ :: r.2, r.1⟩

/-- A channel that delivers every send attempt. -/
def chOk : Nat → Option String := fun _ => none

/-- A channel that fails the first send attempt with `TelegramError("net
down")` and delivers every later one. -/
def chFail0 : Nat → Option String := fun n => if n = 0 then some "net down" else none

/-- The homework record of the spec's end-to-end scenario. -/
def hwRecordA : Json :=
  Json.obj [("homework_name", Json.str "A"), ("status", Json.str "reviewing")]

/-- The poll-1 envelope of the spec's end-to-end scenario. -/
def envScenario : Json :=
  Json.obj [("homeworks", Json.arr [hwRecordA]), ("current_date", Json.int 100)]

/-- The message `parse_status` produces for `hwRecordA`. -/
def msgA : String :=
  "Изменился статус проверки работы \"A\". Работа взята на проверку ревьюером."

/-- A record lacking `homework_name`, making `parse_status` fail. -/
def recordNoName : Json := Json.obj [("status", Json.str "approved")]

/-- A validated envelope whose only record fails interpretation. -/
def envBadRecord : Json :=
  Json.obj [("homeworks", Json.arr [recordNoName]), ("current_date", Json.int 7)]

/-- A fetch oracle that always returns status 200 with the given body. -/
def fetchConst (env : Json) : Json → Except String HttpResponse :=
  fun _ => Except.ok ⟨200, some env⟩

/-- Initial loop state used in the concrete scenarios: cursor 50, fresh bot. -/
def st50 : LoopState := ⟨Json.int 50, ⟨[], []⟩⟩

/-- A configuration with the API token absent. -/
def cfgMissing : BotConfig := ⟨none, some "t", some "c"⟩

/-- A configuration with all three credentials present. -/
def cfgFull : BotConfig := ⟨some "p", some "t", some "c"⟩

/-- A validated envelope with an empty homeworks sequence (an idle cycle). -/
def envEmpty : Json := Json.obj [("homeworks", Json.arr []), ("current_date", Json.int 42)]

example :
    check_response (Json.obj [("homeworks", Json.arr []), ("current_date", Json.int 1)]) =
      Except.ok (Json.arr []) := by rfl

example :
    check_response (Json.obj []) =
      Except.error (PyError.keyError "отуствуют ожидаемые ключи в ответе api") := by rfl

example :
    check_response (Json.obj [("homeworks", Json.str "not-a-list"), ("current_date", Json.int 1)]) =
      Except.error (PyError.typeError "неверный формат API, not-a-list") := by rfl

example :
    parse_status (Json.obj [("homework_name", Json.str "hw1"), ("status", Json.str "approved")]) =
      Except.ok "Изменился статус проверки работы \"hw1\". Работа проверена: ревьюеру всё понравилось. Ура!" := by rfl

example :
    parse_status (Json.obj [("homework_name", Json.str "hw1"), ("status", Json.str "weird")]) =
      Except.error (PyError.valueError "Недокументированный статус домашней работы") := by rfl

example : (runCycle chOk (fetchConst envScenario) st50).1.timestamp = Json.int 50 := by rfl

example : (runCycle chOk (fetchConst envScenario) st50).1.bot.sent =
    [msgA, "сообщение отправлено"] := by rfl

example : (loopStateAfter chOk (fun _ => fetchConst envScenario) st50 2).bot.sent =
    [msgA, "сообщение отправлено", msgA, "сообщение отправлено"] := by rfl

example : (runCycle chOk (fetchConst envBadRecord) st50).1.bot.attempts = [] := by rfl

example : (runCycle chFail0 (fetchConst envScenario) st50).1.bot.attempts =
    [msgA, "Ошибка при отправке сообщения: net down"] := by rfl

example : mainStartup cfgMissing chOk 0 =
    Except.error ⟨0, [⟨LogLevel.critical, "Отсуствует токен, программа приостановлена"⟩],
      ⟨["отсуствует токен"], ["отсуствует токен"]⟩⟩ := by rfl

/-- Every failure of `check_response` is a `TypeError` or a `KeyError`; in
particular the `except ValueError` handler of `handle_response` can never
fire on it. -/
theorem check_response_not_valueError (r : Json) (m : String) :
    check_response r ≠ Except.error (PyError.valueError m) := by
  intro h
  unfold check_response at h
  repeat' split at h
  all_goals simp_all

/-- A response accepted by `check_response` is a dict containing the
`current_date` key, so the guard on source line 140 is false for it. -/
theorem check_response_ok_hasCurrent (r : Json) (hw : Json)
    (h : check_response r = Except.ok hw) :
    pyIn "current_date" r = Except.ok true := by
  unfold check_response at h
  repeat' split at h
  all_goals simp_all [pyIn]

/-- If `handle_response` returns (rather than raising), the response passed
`check_response`, hence contains `current_date`. -/
theorem handle_response_ok_hasCurrent (r : Json) (x : Option String × List LogEntry)
    (h : handle_response r = Except.ok x) :
    pyIn "current_date" r = Except.ok true := by
  unfold handle_response at h
  cases hc : check_response r with
  | ok hw => exact check_response_ok_hasCurrent r hw hc
  | error e =>
    rw [hc] at h
    cases e <;> simp at h
    exact absurd hc (check_response_not_valueError r _)

/-- A message returned by `handle_response` is truthy (non-empty) and is
accompanied by no log lines. -/
theorem handle_response_some (r : Json) (m : String) (lg : List LogEntry)
    (h : handle_response r = Except.ok (some m, lg)) : ¬ m = "" ∧ lg = [] := by
  unfold handle_response handle_homework at h
  repeat' split at h
  all_goals simp_all

/-- A `send_error_message` call records exactly one attempt, whatever the
channel does. -/
theorem send_error_message_attempts (ch : Nat → Option String) (bot : BotState)
    (t : String) : (send_error_message ch bot t).1.attempts = bot.attempts ++ [t] := by
  unfold send_error_message
  split <;> rfl

/-- The loop-boundary handler records exactly one alert attempt carrying
`str(error)`. -/
theorem exceptBranch_attempts (ch : Nat → Option String) (bot : BotState)
    (e : PyError) :
    (exceptBranch ch bot e).1.attempts = bot.attempts ++ [pyErrStr e] := by
  unfold exceptBranch
  exact send_error_message_attempts ch bot (pyErrStr e)

/-- The loop-boundary handler logs the failure first. -/
theorem exceptBranch_logs (ch : Nat → Option String) (bot : BotState) (e : PyError) :
    ∃ rest, (exceptBranch ch bot e).2 =
      ⟨LogLevel.error, "Сбой в работе программы: " ++ pyErrStr e⟩ :: rest :=
  ⟨(send_error_message ch bot (pyErrStr e)).2, rfl⟩

/-- Once the `current_date` key is known to be present, source lines 140–144
are a no-op. -/
theorem currentDateBlock_present (ch : Nat → Option String) (ts : Json)
    (bot : BotState) (response : Json) (logs : List LogEntry)
    (h : pyIn "current_date" response = Except.ok true) :
    currentDateBlock ch ts bot response logs = (⟨ts, bot⟩, logs) := by
  unfold currentDateBlock
  rw [h]

/-- The `timestamp` variable of `main` survives every cycle unchanged: the
only assignment to it (source line 144) sits under the guard
`if 'current_date' not in response`, and that guard is provably false
whenever control reaches it. -/
theorem runCycle_timestamp (ch : Nat → Option String)
    (fetch : Json → Except String HttpResponse) (st : LoopState) :
    (runCycle ch fetch st).1.timestamp = st.timestamp := by
  unfold runCycle
  split
  · rfl
  · next response heq =>
    split
    · rfl
    · next mh hr =>
      have hcur : pyIn "current_date" response = Except.ok true :=
        handle_response_ok_hasCurrent response mh hr
      split
      · rw [currentDateBlock_present ch st.timestamp st.bot response mh.2 hcur]
      · split
        · rw [currentDateBlock_present ch st.timestamp st.bot response mh.2 hcur]
        · split
          · rfl
          · rw [currentDateBlock_present _ _ _ _ _ hcur]

/-- Iterating `runCycle` never changes the timestamp. -/
theorem loopStateAfter_timestamp (ch : Nat → Option String)
    (fetch : Nat → Json → Except String HttpResponse) (st : LoopState) (n : Nat) :
    (loopStateAfter ch fetch st n).timestamp = st.timestamp := by
  induction n with
  | zero => rfl
  | succ k ih =>
    have h := runCycle_timestamp ch (fetch k) (loopStateAfter ch fetch st k)
    simpa [loopStateAfter, ih] using h

/-- General Except-bind reduction used when unfolding `parse_status`. -/
theorem except_bind_ok {ε α β : Type} (a : α) (f : α → Except ε β) :
    (Except.ok a : Except ε α) >>= f = f a := rfl

/-- General Except-bind propagation used when unfolding `parse_status`. -/
theorem except_bind_error {ε α β : Type} (e : ε) (f : α → Except ε β) :
    (Except.error e : Except ε α) >>= f = Except.error e := rfl

/-- C1 (code bug): the spec says a validated envelope advances the cursor to
its `current_date` before the next fetch, but the assignment on source line
144 is guarded by the inverted condition `if 'current_date' not in response`,
which is false on every validated envelope, so the cursor never moves.  On
the spec's own scenario (cursor 50, response
`{"homeworks": [{"homework_name": "A", "status": "reviewing"}],
"current_date": 100}`) the cycle validates and notifies, yet the next fetch
still uses 50, not 100. -/
theorem c1_cursor_never_advanced :
    (runCycle chOk (fetchConst envScenario) st50).1.timestamp = Json.int 50 ∧
    (runCycle chOk (fetchConst envScenario) st50).1.bot.sent =
      [msgA, "сообщение отправлено"] ∧
    ¬ (runCycle chOk (fetchConst envScenario) st50).1.timestamp = Json.int 100 := by
  refine ⟨rfl, rfl, ?_⟩
  intro h
  have h2 : Json.int 50 = Json.int 100 := h
  injection h2 with h3
  omega

/-- C9: the `from_date` cursor is non-decreasing across cycles — indeed it is
constant, because the only assignment to it is unreachable (see
`runCycle_timestamp`): for every channel behaviour, fetch behaviour and
number of cycles, the cursor used by cycle `n + 1` is the integer used by
cycle `n`. -/
theorem c9_cursor_nondecreasing (ch : Nat → Option String)
    (fetch : Nat → Json → Except String HttpResponse) (st : LoopState) (t : Int)
    (h : st.timestamp = Json.int t) (n : Nat) :
    ∃ a b : Int, (loopStateAfter ch fetch st n).timestamp = Json.int a ∧
      (loopStateAfter ch fetch st (n + 1)).timestamp = Json.int b ∧ a ≤ b := by
  refine ⟨t, t, ?_, ?_, le_refl t⟩
  · rw [loopStateAfter_timestamp, h]
  · rw [loopStateAfter_timestamp, h]

/-- Witness for C9: three and four cycles of the concrete scenario. -/
theorem c9_cursor_nondecreasing_witness :
    ∃ a b : Int,
      (loopStateAfter chOk (fun _ => fetchConst envScenario) st50 3).timestamp = Json.int a ∧
      (loopStateAfter chOk (fun _ => fetchConst envScenario) st50 4).timestamp = Json.int b ∧
      a ≤ b :=
  c9_cursor_nondecreasing chOk (fun _ => fetchConst envScenario) st50 50 (by rfl) 3

/-- C10: a response validating with an empty `homeworks` sequence makes an
idle cycle: `handle_response` yields no message, no send attempt is made, no
log line of any severity is written, and the state is returned unchanged for
the next cycle. -/
theorem c10_idle_cycle (ch : Nat → Option String)
    (fetch : Json → Except String HttpResponse) (st : LoopState) (response : Json)
    (hf : fetch st.timestamp = Except.ok ⟨200, some response⟩)
    (hc : check_response response = Except.ok (Json.arr [])) :
    runCycle ch fetch st = (st, []) := by
  have hcur := check_response_ok_hasCurrent response (Json.arr []) hc
  have hhr : handle_response response = Except.ok (none, []) := by
    unfold handle_response
    rw [hc]
  have hga : get_api_answer (fetch st.timestamp) = Except.ok response := by
    rw [hf]
    rfl
  simp [runCycle, hga, hhr, currentDateBlock, hcur]

/-- Witness for C10: the concrete empty-homeworks envelope. -/
theorem c10_idle_cycle_witness :
    runCycle chOk (fetchConst envEmpty) st50 = (st50, []) :=
  c10_idle_cycle chOk (fetchConst envEmpty) st50 envEmpty (by rfl) (by rfl)

/-- C4 counterexample: the mapping `{"homeworks": "x"}` lacks `current_date`,
so by the claim it should fail with the missing-field error (`KeyError`);
`check_response` instead fails with the schema error (`TypeError`), because
the list-shape check on `homeworks` precedes the `current_date` presence
check. -/
theorem c4_schema_error_precedence_counterexample :
    check_response (Json.obj [("homeworks", Json.str "x")]) =
      Except.error (PyError.typeError "неверный формат API, x") := rfl

/-- C4 (amended): `check_response` decides in source order — a non-dict fails
with the schema error; a dict without `homeworks` fails with the
missing-field error; a dict whose `homeworks` is not a list fails with the
schema error even when `current_date` is also absent; a dict with a list
`homeworks` but no `current_date` fails with the missing-field error; and any
other dict succeeds, returning the homeworks sequence. -/
theorem c4_check_response_precedence :
    (∀ v : Json, isDict v = false →
        check_response v = Except.error (PyError.typeError "неверный формат API")) ∧
    (∀ fields : List (String × Json), lookupFirst fields "homeworks" = none →
        check_response (Json.obj fields) =
          Except.error (PyError.keyError "отуствуют ожидаемые ключи в ответе api")) ∧
    (∀ (fields : List (String × Json)) (hw : Json),
        lookupFirst fields "homeworks" = some hw → isList hw = false →
        check_response (Json.obj fields) =
          Except.error (PyError.typeError ("неверный формат API, " ++ pyStr hw))) ∧
    (∀ (fields : List (String × Json)) (xs : List Json),
        lookupFirst fields "homeworks" = some (Json.arr xs) →
        lookupFirst fields "current_date" = none →
        check_response (Json.obj fields) =
          Except.error (PyError.keyError "отсутсвует ключ \"current_date")) ∧
    (∀ (fields : List (String × Json)) (xs : List Json) (c : Json),
        lookupFirst fields "homeworks" = some (Json.arr xs) →
        lookupFirst fields "current_date" = some c →
        check_response (Json.obj fields) = Except.ok (Json.arr xs)) := by
  refine ⟨?_, ?_, ?_, ?_, ?_⟩
  · intro v h
    cases v <;> simp_all [isDict, check_response]
  · intro fields h
    simp [check_response, h]
  · intro fields hw h1 h2
    cases hw <;> simp_all [isList, check_response]
  · intro fields xs h1 h2
    simp [check_response, h1, h2]
  · intro fields xs c h1 h2
    simp [check_response, h1, h2]

/-- Witness for C4: each branch of the precedence theorem at a concrete
input, including the spec's two examples `{}` and
`{"homeworks": "not-a-list", "current_date": 1}`. -/
theorem c4_check_response_precedence_witness :
    check_response (Json.int 3) = Except.error (PyError.typeError "неверный формат API") ∧
    check_response (Json.obj []) =
      Except.error (PyError.keyError "отуствуют ожидаемые ключи в ответе api") ∧
    check_response (Json.obj [("homeworks", Json.str "not-a-list"), ("current_date", Json.int 1)]) =
      Except.error (PyError.typeError "неверный формат API, not-a-list") ∧
    check_response (Json.obj [("homeworks", Json.arr []), ("current_date", Json.int 1)]) =
      Except.ok (Json.arr []) :=
  ⟨c4_check_response_precedence.1 (Json.int 3) rfl,
   c4_check_response_precedence.2.1 [] rfl,
   c4_check_response_precedence.2.2.1 [("homeworks", Json.str "not-a-list"), ("current_date", Json.int 1)]
     (Json.str "not-a-list") rfl rfl,
   c4_check_response_precedence.2.2.2.2 [("homeworks", Json.arr []), ("current_date", Json.int 1)]
     [] (Json.int 1) rfl rfl⟩

/-- C5 counterexample: the entry `{"homework_name": "hw"}` lacks the `status`
key, so by the claim it should fail with the missing-field error;
`parse_status` instead reads the status with `.get` (obtaining `None`) and
fails with the unknown-status error. -/
theorem c5_missing_status_counterexample :
    parse_status (Json.obj [("homework_name", Json.str "hw")]) =
      Except.error (PyError.valueError "Недокументированный статус домашней работы") := rfl

/-- C5 (amended): `parse_status` fails with the missing-field error only when
`homework_name` is absent.  The status value is then read with `.get`
(defaulting to `None` when the key is absent) and tested for membership in
the verdict table: an unhashable status value — a JSON list or object —
makes that membership test itself raise `TypeError: unhashable type`; any
other value outside the three verdict keys — in particular the `None` of a
missing `status` key — fails with the unknown-status error; and for a known
status it returns exactly
`Изменился статус проверки работы "<homework_name>". <verdict_text>`. -/
theorem c5_parse_status_cases :
    (∀ fields : List (String × Json), lookupFirst fields "homework_name" = none →
        parse_status (Json.obj fields) =
          Except.error (PyError.valueError
            ("ответ api не содержит ключа " ++ pyStr (Json.obj fields)))) ∧
    (∀ (fields : List (String × Json)) (name : Json) (e : PyError),
        lookupFirst fields "homework_name" = some name →
        verdictLookup ((lookupFirst fields "status").getD Json.null) = Except.error e →
        parse_status (Json.obj fields) = Except.error e) ∧
    (∀ (fields : List (String × Json)) (name : Json),
        lookupFirst fields "homework_name" = some name →
        verdictLookup ((lookupFirst fields "status").getD Json.null) = Except.ok none →
        parse_status (Json.obj fields) =
          Except.error (PyError.valueError "Недокументированный статус домашней работы")) ∧
    (∀ (fields : List (String × Json)) (name : Json) (s verdict : String),
        lookupFirst fields "homework_name" = some name →
        (lookupFirst fields "status").getD Json.null = Json.str s →
        lookupFirst HOMEWORK_VERDICTS s = some verdict →
        parse_status (Json.obj fields) =
          Except.ok ("Изменился статус проверки работы \"" ++ pyStr name ++ "\". " ++ verdict)) := by
  refine ⟨?_, ?_, ?_, ?_⟩
  · intro fields h
    simp [parse_status, pyIn, pyDictGet, except_bind_ok, h]
  · intro fields name e h1 h2
    simp [parse_status, pyIn, pyDictGet, except_bind_ok, except_bind_error, h1, h2]
  · intro fields name h1 h2
    simp [parse_status, pyIn, pyDictGet, except_bind_ok, h1, h2]
  · intro fields name s verdict h1 h2 h3
    simp [parse_status, pyIn, pyDictGet, except_bind_ok, h1, h2, verdictLookup, h3]

/-- Witness for C5: each branch of the case theorem at a concrete entry —
a missing name, an unhashable (list) status, an unknown string status, and
the spec's interpretation-correctness example. -/
theorem c5_parse_status_cases_witness :
    parse_status (Json.obj [("status", Json.str "approved")]) =
      Except.error (PyError.valueError
        "ответ api не содержит ключа \x7b\x27status\x27: \x27approved\x27\x7d") ∧
    parse_status (Json.obj [("homework_name", Json.str "hw"), ("status", Json.arr [])]) =
      Except.error (PyError.typeError "unhashable type: \x27list\x27") ∧
    parse_status (Json.obj [("homework_name", Json.str "hw"), ("status", Json.str "unknown_status")]) =
      Except.error (PyError.valueError "Недокументированный статус домашней работы") ∧
    parse_status (Json.obj [("homework_name", Json.str "hw1"), ("status", Json.str "approved")]) =
      Except.ok "Изменился статус проверки работы \"hw1\". Работа проверена: ревьюеру всё понравилось. Ура!" :=
  ⟨c5_parse_status_cases.1 [("status", Json.str "approved")] rfl,
   c5_parse_status_cases.2.1 [("homework_name", Json.str "hw"), ("status", Json.arr [])]
     (Json.str "hw") (PyError.typeError "unhashable type: \x27list\x27") rfl rfl,
   c5_parse_status_cases.2.2.1 [("homework_name", Json.str "hw"), ("status", Json.str "unknown_status")]
     (Json.str "hw") rfl rfl,
   c5_parse_status_cases.2.2.2 [("homework_name", Json.str "hw1"), ("status", Json.str "approved")]
     (Json.str "hw1") "approved"
     "Работа проверена: ревьюеру всё понравилось. Ура!" rfl rfl rfl⟩

/-- C6 counterexample: one `send_message` call on a healthy channel returns
without error — a successful call — yet two outbound messages go through the
channel: the payload and the follow-up "сообщение отправлено" notice that
source line 53 pushes via `send_error_message`. -/
theorem c6_double_send_counterexample :
    (send_message chOk ⟨[], []⟩ "hi").2.1 = none ∧
    (send_message chOk ⟨[], []⟩ "hi").1.sent = ["hi", "сообщение отправлено"] :=
  ⟨rfl, rfl⟩

/-- C6 (amended): every successful `send_message` call makes exactly two send
attempts — the payload and a "сообщение отправлено" notice through the
best-effort error path — so it causes two outbound messages when the channel
also delivers the second attempt, and one when that attempt fails; never
exactly one per successful call on a healthy channel. -/
theorem c6_successful_send_two_messages (ch : Nat → Option String) (bot : BotState)
    (message : String) (h : ch bot.attempts.length = none) :
    (send_message ch bot message).2.1 = none ∧
    (send_message ch bot message).1.attempts =
      bot.attempts ++ [message, "сообщение отправлено"] ∧
    (send_message ch bot message).1.sent =
      bot.sent ++ [message] ++
        (match ch (bot.attempts.length + 1) with
         | none => ["сообщение отправлено"]
         | some _ => []) := by
  unfold send_message send_error_message
  rw [h]
  cases h2 : ch ((bot.attempts ++ [message]).length) <;>
    simp_all [List.length_append]

/-- Witness for C6: the concrete double send of `c6_double_send_counterexample`
obtained through the general theorem. -/
theorem c6_successful_send_two_messages_witness :
    (send_message chOk ⟨[], []⟩ "hi").2.1 = none ∧
    (send_message chOk ⟨[], []⟩ "hi").1.attempts = [] ++ ["hi", "сообщение отправлено"] ∧
    (send_message chOk ⟨[], []⟩ "hi").1.sent =
      [] ++ ["hi"] ++
        (match chOk (List.length ([] : List String) + 1) with
         | none => ["сообщение отправлено"]
         | some _ => []) :=
  c6_successful_send_two_messages chOk ⟨[], []⟩ "hi" rfl

/-- A `TypeError` or `KeyError` from `check_response` passes through
`handle_response` uncaught (its `except ValueError` never matches them). -/
theorem handle_response_check_error (r : Json) (e : PyError)
    (h : check_response r = Except.error e) : handle_response r = Except.error e := by
  unfold handle_response
  rw [h]
  cases e <;> first
    | rfl
    | exact absurd h (check_response_not_valueError r _)

/-- C2 counterexample: two consecutive cycles on the spec's scenario envelope
(identical first homework record both times) deliver the status message
twice — the claim says exactly one notification for the pair. -/
theorem c2_duplicate_notification :
    (loopStateAfter chOk (fun _ => fetchConst envScenario) st50 2).bot.sent =
      [msgA, "сообщение отправлено", msgA, "сообщение отправлено"] ∧
    (loopStateAfter chOk (fun _ => fetchConst envScenario) st50 2).bot.sent.count msgA = 2 :=
  ⟨rfl, rfl⟩

/-- C2 (amended): the loop keeps no last-message state, so there is no dedup:
for every pair of consecutive cycles whose responses produce the same
interpreted message, the status notification is delivered once per cycle
(each followed by the "сообщение отправлено" notice of `send_message`) —
two status notifications for the pair, not one. -/
theorem c2_no_dedup_two_sends (response : Json) (m : String) (st : LoopState)
    (h : handle_response response = Except.ok (some m, [])) :
    (loopStateAfter chOk (fun _ => fetchConst response) st 2).bot.sent =
      st.bot.sent ++ [m, "сообщение отправлено", m, "сообщение отправлено"] := by
  have hm : ¬ m = "" := (handle_response_some response m [] h).1
  have hcur := handle_response_ok_hasCurrent response (some m, []) h
  have cyc : ∀ s : LoopState, runCycle chOk (fetchConst response) s =
      (⟨s.timestamp, ⟨s.bot.attempts ++ [m, "сообщение отправлено"],
         s.bot.sent ++ [m, "сообщение отправлено"]⟩⟩,
       [⟨LogLevel.debug, "сообщение отправлено"⟩,
        ⟨LogLevel.info, "Новое сообщение: " ++ m⟩]) := by
    intro s
    have hga : get_api_answer (fetchConst response s.timestamp) = Except.ok response := rfl
    simp [runCycle, hga, h, hm, send_message, send_error_message, chOk,
      currentDateBlock, hcur, List.append_assoc]
  simp [loopStateAfter, cyc, List.append_assoc]

/-- Witness for C2: the amended theorem at the concrete scenario envelope. -/
theorem c2_no_dedup_two_sends_witness :
    (loopStateAfter chOk (fun _ => fetchConst envScenario) st50 2).bot.sent =
      st50.bot.sent ++ [msgA, "сообщение отправлено", msgA, "сообщение отправлено"] :=
  c2_no_dedup_two_sends envScenario msgA st50 rfl

/-- C3 counterexample: on a validated envelope whose only record lacks
`homework_name`, the cycle logs the interpretation failure but attempts no
operator notification at all — the claim requires a best-effort operator
notification for every non-fatal error, including per-record interpretation
failures. -/
theorem c3_parse_error_no_alert :
    (runCycle chOk (fetchConst envBadRecord) st50).1.bot.attempts = [] ∧
    (runCycle chOk (fetchConst envBadRecord) st50).2 =
      [⟨LogLevel.error,
        "ошибка парсинга ответ api не содержит ключа \x7b\x27status\x27: \x27approved\x27\x7d"⟩] :=
  ⟨rfl, rfl⟩

/-- C3 (amended): transport failures and envelope validation failures are
caught at the loop boundary, logged at error severity and answered with one
best-effort operator alert, and never terminate the cycle (the state for the
next scheduled cycle is produced, cursor untouched); a per-record
interpretation failure, however, is caught inside `handle_homework`, logged
at error severity, and produces no operator notification. -/
theorem c3_error_routing :
    (∀ (ch : Nat → Option String) (st : LoopState) (emsg : String),
        (runCycle ch (fun _ => Except.error emsg) st).1.timestamp = st.timestamp ∧
        (runCycle ch (fun _ => Except.error emsg) st).1.bot.attempts =
          st.bot.attempts ++ [""] ∧
        ∃ rest, (runCycle ch (fun _ => Except.error emsg) st).2 =
          ⟨LogLevel.error, "Сбой в работе программы: "⟩ :: rest) ∧
    (∀ (ch : Nat → Option String) (st : LoopState) (response : Json) (e : PyError),
        check_response response = Except.error e →
        (runCycle ch (fetchConst response) st).1.timestamp = st.timestamp ∧
        (runCycle ch (fetchConst response) st).1.bot.attempts =
          st.bot.attempts ++ [pyErrStr e] ∧
        ∃ rest, (runCycle ch (fetchConst response) st).2 =
          ⟨LogLevel.error, "Сбой в работе программы: " ++ pyErrStr e⟩ :: rest) ∧
    (∀ (ch : Nat → Option String) (st : LoopState) (response first : Json)
        (others : List Json) (e : PyError),
        check_response response = Except.ok (Json.arr (first :: others)) →
        parse_status first = Except.error e →
        (runCycle ch (fetchConst response) st).1 = st ∧
        (runCycle ch (fetchConst response) st).2 =
          [⟨LogLevel.error, "ошибка парсинга " ++ pyErrStr e⟩]) := by
  refine ⟨?_, ?_, ?_⟩
  · intro ch st emsg
    refine ⟨runCycle_timestamp ch _ st, ?_, ?_⟩
    · show (exceptBranch ch st.bot (PyError.connectionError "")).1.attempts =
        st.bot.attempts ++ [""]
      rw [exceptBranch_attempts]
      rfl
    · exact ⟨(send_error_message ch st.bot "").2, rfl⟩
  · intro ch st response e hce
    have hhr := handle_response_check_error response e hce
    have hga : get_api_answer (fetchConst response st.timestamp) = Except.ok response := rfl
    refine ⟨runCycle_timestamp ch _ st, ?_, ?_⟩
    · simp [runCycle, hga, hhr, exceptBranch_attempts]
    · refine ⟨(send_error_message ch st.bot (pyErrStr e)).2, ?_⟩
      simp [runCycle, hga, hhr, exceptBranch]
  · intro ch st response first others e hco hpe
    have hcur := check_response_ok_hasCurrent response (Json.arr (first :: others)) hco
    have hh : handle_homework first =
        (none, [⟨LogLevel.error, "ошибка парсинга " ++ pyErrStr e⟩]) := by
      unfold handle_homework
      rw [hpe]
    have hhr : handle_response response =
        Except.ok (none, [⟨LogLevel.error, "ошибка парсинга " ++ pyErrStr e⟩]) := by
      have step : handle_response response = Except.ok (handle_homework first) := by
        unfold handle_response
        rw [hco]
      rw [step, hh]
    have hga : get_api_answer (fetchConst response st.timestamp) = Except.ok response := rfl
    constructor
    · simp [runCycle, hga, hhr, currentDateBlock, hcur]
    · simp [runCycle, hga, hhr, currentDateBlock, hcur]

/-- Witness for C3: the three error kinds at concrete inputs — a transport
timeout, a non-dict response, and the bad-record envelope. -/
theorem c3_error_routing_witness :
    ((runCycle chOk (fun _ => Except.error "timeout") st50).1.timestamp = st50.timestamp ∧
      (runCycle chOk (fun _ => Except.error "timeout") st50).1.bot.attempts =
        st50.bot.attempts ++ [""] ∧
      ∃ rest, (runCycle chOk (fun _ => Except.error "timeout") st50).2 =
        ⟨LogLevel.error, "Сбой в работе программы: "⟩ :: rest) ∧
    ((runCycle chOk (fetchConst (Json.str "oops")) st50).1.timestamp = st50.timestamp ∧
      (runCycle chOk (fetchConst (Json.str "oops")) st50).1.bot.attempts =
        st50.bot.attempts ++ [pyErrStr (PyError.typeError "неверный формат API")] ∧
      ∃ rest, (runCycle chOk (fetchConst (Json.str "oops")) st50).2 =
        ⟨LogLevel.error,
          "Сбой в работе программы: " ++ pyErrStr (PyError.typeError "неверный формат API")⟩ :: rest) ∧
    ((runCycle chOk (fetchConst envBadRecord) st50).1 = st50 ∧
      (runCycle chOk (fetchConst envBadRecord) st50).2 =
        [⟨LogLevel.error, "ошибка парсинга " ++
          pyErrStr (PyError.valueError ("ответ api не содержит ключа " ++ pyStr recordNoName))⟩]) :=
  ⟨c3_error_routing.1 chOk st50 "timeout",
   c3_error_routing.2.1 chOk st50 (Json.str "oops") (PyError.typeError "неверный формат API") rfl,
   c3_error_routing.2.2 chOk st50 envBadRecord recordNoName []
     (PyError.valueError ("ответ api не содержит ключа " ++ pyStr recordNoName)) rfl rfl⟩

/-- C7 counterexample: a channel failure on the payload send inside
`send_message` is not logged there and raises a generic exception out of the
notify call site; back in the cycle, the loop-boundary handler then attempts
a further escalation alert — the claim says the failure is logged locally,
nothing is raised, and no further escalation is triggered. -/
theorem c7_send_failure_escalates_counterexample :
    (send_message chFail0 ⟨[], []⟩ "hi").2.1 =
      some (PyError.exception "Ошибка при отправке сообщения: net down") ∧
    (send_message chFail0 ⟨[], []⟩ "hi").2.2 = [] ∧
    (runCycle chFail0 (fetchConst envScenario) st50).1.bot.attempts =
      [msgA, "Ошибка при отправке сообщения: net down"] :=
  ⟨rfl, rfl, rfl⟩

/-- C7 (amended): a delivery failure inside `send_message` produces no local
log and raises a generic exception out of the notify call site; a delivery
failure inside `send_error_message` is logged locally and never raised; when
the payload send of a cycle fails, the loop boundary catches the raised
exception, logs it, and attempts one further best-effort operator alert, and
the loop continues on schedule with its cursor unchanged. -/
theorem c7_send_failure_behaviour :
    (∀ (ch : Nat → Option String) (bot : BotState) (msg e : String),
        ch bot.attempts.length = some e →
        send_message ch bot msg =
          (⟨bot.attempts ++ [msg], bot.sent⟩,
           some (PyError.exception ("Ошибка при отправке сообщения: " ++ e)), [])) ∧
    (∀ (ch : Nat → Option String) (bot : BotState) (msg e : String),
        ch bot.attempts.length = some e →
        send_error_message ch bot msg =
          (⟨bot.attempts ++ [msg], bot.sent⟩,
           [⟨LogLevel.error, "ошбка отправки сообщения об ошибке " ++ e⟩])) ∧
    (∀ (ch : Nat → Option String) (st : LoopState) (response : Json) (m e : String),
        handle_response response = Except.ok (some m, []) →
        ch st.bot.attempts.length = some e →
        (runCycle ch (fetchConst response) st).1.timestamp = st.timestamp ∧
        (runCycle ch (fetchConst response) st).1.bot.attempts =
          st.bot.attempts ++ [m, "Ошибка при отправке сообщения: " ++ e] ∧
        ∃ rest, (runCycle ch (fetchConst response) st).2 =
          ⟨LogLevel.error, "Сбой в работе программы: " ++
            ("Ошибка при отправке сообщения: " ++ e)⟩ :: rest) := by
  refine ⟨?_, ?_, ?_⟩
  · intro ch bot msg e h
    unfold send_message
    rw [h]
  · intro ch bot msg e h
    unfold send_error_message
    rw [h]
  · intro ch st response m e hhr hch
    have hm : ¬ m = "" := (handle_response_some response m [] hhr).1
    have hga : get_api_answer (fetchConst response st.timestamp) = Except.ok response := rfl
    have hsm : send_message ch st.bot m =
        (⟨st.bot.attempts ++ [m], st.bot.sent⟩,
         some (PyError.exception ("Ошибка при отправке сообщения: " ++ e)), []) := by
      unfold send_message
      rw [hch]
    refine ⟨runCycle_timestamp ch _ st, ?_, ?_⟩
    · simp [runCycle, hga, hhr, hm, hsm, exceptBranch_attempts, pyErrStr]
    · refine ⟨(send_error_message ch ⟨st.bot.attempts ++ [m], st.bot.sent⟩
        ("Ошибка при отправке сообщения: " ++ e)).2, ?_⟩
      simp [runCycle, hga, hhr, hm, hsm, exceptBranch, pyErrStr]

/-- Witness for C7: the three behaviours at the concrete failing channel. -/
theorem c7_send_failure_behaviour_witness :
    send_message chFail0 ⟨[], []⟩ "hi" =
      (⟨[] ++ ["hi"], []⟩,
       some (PyError.exception ("Ошибка при отправке сообщения: " ++ "net down")), []) ∧
    send_error_message chFail0 ⟨[], []⟩ "oops" =
      (⟨[] ++ ["oops"], []⟩,
       [⟨LogLevel.error, "ошбка отправки сообщения об ошибке " ++ "net down"⟩]) ∧
    ((runCycle chFail0 (fetchConst envScenario) st50).1.timestamp = st50.timestamp ∧
      (runCycle chFail0 (fetchConst envScenario) st50).1.bot.attempts =
        st50.bot.attempts ++ [msgA, "Ошибка при отправке сообщения: " ++ "net down"] ∧
      ∃ rest, (runCycle chFail0 (fetchConst envScenario) st50).2 =
        ⟨LogLevel.error, "Сбой в работе программы: " ++
          ("Ошибка при отправке сообщения: " ++ "net down")⟩ :: rest) :=
  ⟨c7_send_failure_behaviour.1 chFail0 ⟨[], []⟩ "hi" "net down" rfl,
   c7_send_failure_behaviour.2.1 chFail0 ⟨[], []⟩ "oops" "net down" rfl,
   c7_send_failure_behaviour.2.2 chFail0 st50 envScenario msgA "net down" rfl rfl⟩

/-- C8 counterexample: with the API token absent, startup logs at critical
severity but then attempts a notification-channel alert ("отсуствует токен")
and raises a bare `SystemExit`, whose process exit status is 0 — the claim
says no alert is attempted and the exit code is non-zero. -/
theorem c8_startup_counterexample :
    mainStartup cfgMissing chOk 0 =
      Except.error ⟨0, [⟨LogLevel.critical, "Отсуствует токен, программа приостановлена"⟩],
        ⟨["отсуствует токен"], ["отсуствует токен"]⟩⟩ :=
  rfl

/-- C8 (amended): if any of the three credentials is absent (or empty), the
process logs at the highest severity, attempts one best-effort
notification-channel alert, and terminates via a bare `SystemExit` — exit
status 0, not non-zero — before entering the poll loop; if all three are
present, startup does not terminate and enters the loop with cursor `t0`. -/
theorem c8_startup_behaviour (cfg : BotConfig) (ch : Nat → Option String) (t0 : Int) :
    (check_tokens cfg = false →
      ∃ ex : StartupExit, mainStartup cfg ch t0 = Except.error ex ∧
        ex.exitCode = 0 ∧
        ex.logs.head? = some ⟨LogLevel.critical, "Отсуствует токен, программа приостановлена"⟩ ∧
        ex.bot.attempts = ["отсуствует токен"]) ∧
    (check_tokens cfg = true →
      mainStartup cfg ch t0 = Except.ok ⟨Json.int t0, ⟨[], []⟩⟩) := by
  constructor
  · intro h
    refine ⟨⟨0, ⟨LogLevel.critical, "Отсуствует токен, программа приостановлена"⟩ ::
        (send_error_message ch ⟨[], []⟩ "отсуствует токен").2,
        (send_error_message ch ⟨[], []⟩ "отсуствует токен").1⟩, ?_, rfl, rfl, ?_⟩
    · unfold mainStartup
      rw [h]
      simp
    · show (send_error_message ch ⟨[], []⟩ "отсуствует токен").1.attempts = _
      rw [send_error_message_attempts]
      rfl
  · intro h
    unfold mainStartup
    rw [h]
    simp

/-- Witness for C8: a missing API token versus a fully configured startup. -/
theorem c8_startup_behaviour_witness :
    (∃ ex : StartupExit, mainStartup cfgMissing chOk 5 = Except.error ex ∧
      ex.exitCode = 0 ∧
      ex.logs.head? = some ⟨LogLevel.critical, "Отсуствует токен, программа приостановлена"⟩ ∧
      ex.bot.attempts = ["отсуствует токен"]) ∧
    mainStartup cfgFull chOk 5 = Except.ok ⟨Json.int 5, ⟨[], []⟩⟩ :=
  ⟨(c8_startup_behaviour cfgMissing chOk 5).1 rfl,
   (c8_startup_behaviour cfgFull chOk 5).2 rfl⟩
